import Mathlib

/-!
Verification development for the chaindict repository: an append-only chain of
dictionaries stored as delta and snapshot files with trailer-encoded metadata.

The embedding is byte-level and follows the source files:
  src/storage.rs  : framed random-access reader and append-only writer
  src/delta.rs    : delta footer codec
  src/entries.rs  : insertion-ordered unique-entry index
  src/reader.rs   : dictionary materialization (open, reload)
  src/writer.rs   : link creation (create, with_snapshot, write_unique, finish)

Files are lists of byte values, stores map link ids (the u128 value of a LinkId,
0 reserved for the no-predecessor sentinel) to files.  Fallible operations
return Except.  The unbounded reader loops of reader.rs are given explicit fuel:
a result of none means the fuel ran out before the loop terminated.

Three pieces of the crate are declared or called in src but their code is not
present there; they are modelled from the spec and marked as such below:
snapshot::Footer (module snapshot is declared in lib.rs, the file is absent),
Storage::open_maybe (called in reader.rs), and storage::Writer::file_size
(called in writer.rs).

A central, deliberate point of fidelity: storage::Reader::read_bytes
(src/storage.rs lines 152 to 162) computes the byte range from self.offset but
never advances self.offset, and the only cursor-moving methods (goto,
set_file_size) are pub(crate), invisible to user Entry implementations.  The
byte-reading primitives below therefore leave the reader state unchanged, and
the footer and entry reads performed by reader.rs and writer.rs are built on
top of them exactly as in the source.
-/

namespace Chaindict

/-- A file is a list of byte values (each below 256 by construction on the
write side; the reading primitives never depend on that bound). -/
abbrev Bytes := List Nat

/-- Big-endian decoding of a byte list, as u16::from_be_bytes,
u32::from_be_bytes and u128::from_be_bytes do on the storage reader side. -/
def beVal (bs : Bytes) : Nat :=
  bs.foldl (fun acc b => acc * 256 + b) 0

/-- Big-endian encoding of v into w bytes, as the to_be_bytes calls on the
storage writer side (src/storage.rs write_u16 / write_u32 / write_u128). -/
def beBytes : Nat → Nat → Bytes
  | 0, _ => []
  | w + 1, v => beBytes w (v / 256) ++ [v % 256]

/-- The storage format version, src/storage.rs line 46. -/
def VERSION : Nat := 0

/-- u32::MAX. -/
def u32Max : Nat := 2 ^ 32 - 1

/-- The two file kinds of src/storage.rs (Kind::Delta, Kind::Snapshot). -/
inductive FileKind where
  | delta
  | snapshot
deriving DecidableEq

/-- The error enum of src/error.rs.  Storage errors carry an opaque opendal
error in the source; here they are a bare constructor.  The extra constructor
panicTodo models the todo unimplemented branch reached by
storage::Reader::goto when a negative offset underflows the file size. -/
inductive Err where
  | disconnected (latest expected got : Nat)
  | doesNotExist (link : Nat) (kind : FileKind)
  | empty
  | fileSize (expected got : Nat)
  | notEmpty
  | storage
  | tooManyEntries
  | version (expected got : Nat)
  | panicTodo
deriving DecidableEq

namespace Storage

/-- The framed random-access reader of src/storage.rs: a cursor, a logical
file size (which can be shrunk to hide a trailer), and the raw bytes. -/
structure Reader where
  offset : Nat
  file_size : Nat
  data : Bytes
deriving DecidableEq

/-- A fresh reader over a whole file, as Storage::open returns it
(offset 0, file_size = physical content length). -/
def Reader.openFile (f : Bytes) : Reader :=
  ⟨0, f.length, f⟩

/-- storage::Reader::read_bytes, src/storage.rs lines 152 to 162: checks that
the range [offset, offset+n) fits the logical file size, then reads those
bytes.  The source never assigns self.offset (its doc comment notwithstanding)
and mutates nothing else, so the reader state is unchanged and the function is
modelled as returning the bytes only. -/
def Reader.read_bytes (r : Reader) (n : Nat) : Except Err Bytes :=
  if r.offset + n > r.file_size then
    .error (.fileSize (r.offset + n) r.file_size)
  else
    .ok ((r.data.drop r.offset).take n)

/-- storage::Reader::read_u16. -/
def Reader.read_u16 (r : Reader) : Except Err Nat :=
  (r.read_bytes 2).map beVal

/-- storage::Reader::read_u32. -/
def Reader.read_u32 (r : Reader) : Except Err Nat :=
  (r.read_bytes 4).map beVal

/-- storage::Reader::read_u128. -/
def Reader.read_u128 (r : Reader) : Except Err Nat :=
  (r.read_bytes 16).map beVal

/-- storage::Reader::goto, src/storage.rs lines 187 to 200: a positive offset
is absolute from the start; zero or a negative offset is relative to the
logical end (isize::is_positive is false at 0).  Underflow hits a todo
unimplemented branch in the source, modelled as the panicTodo error. -/
def Reader.goto (r : Reader) (off : Int) : Except Err Reader :=
  if 0 < off then
    .ok { r with offset := off.toNat }
  else if (r.file_size : Int) + off < 0 then
    .error .panicTodo
  else
    .ok { r with offset := ((r.file_size : Int) + off).toNat }

/-- storage::Reader::set_file_size. -/
def Reader.set_file_size (r : Reader) (n : Nat) : Reader :=
  { r with file_size := n }

end Storage

/-- delta::Footer, src/delta.rs lines 26 to 43.  previous is none for the
chain root (encoded as the u128 value 0). -/
structure DFooter where
  previous : Option Nat
  index : Nat
  total : Nat
  count : Nat
deriving DecidableEq

namespace DFooter

/-- Footer::SIZE for delta files, src/delta.rs line 49. -/
def SIZE : Nat := 30

/-- delta::Footer::read, src/delta.rs lines 55 to 95, translated statement by
statement on top of the storage::Reader primitives: size guard, seek to -2 and
version check, seek to -SIZE, the five field reads, then the logical-size
shrink.  Because the primitives do not advance the cursor, the three
read_u32 calls all read from the seek position, exactly as the source does. -/
def read (r : Storage.Reader) : Except Err (DFooter × Storage.Reader) :=
  if r.file_size < SIZE then
    .error (.fileSize SIZE r.file_size)
  else
    match r.goto (-2) with
    | .error e => .error e
    | .ok r =>
      match r.read_u16 with
      | .error e => .error e
      | .ok version =>
        if version ≠ VERSION then
          .error (.version VERSION version)
        else
          match r.goto (-(SIZE : Int)) with
          | .error e => .error e
          | .ok r =>
            match r.read_u128 with
            | .error e => .error e
            | .ok previous =>
              let previous := if previous = 0 then none else some previous
              match r.read_u32 with
              | .error e => .error e
              | .ok index =>
                match r.read_u32 with
                | .error e => .error e
                | .ok total =>
                  match r.read_u32 with
                  | .error e => .error e
                  | .ok count =>
                    .ok (⟨previous, index, total, count⟩,
                      r.set_file_size (r.file_size - SIZE))

/-- delta::Footer::write, src/delta.rs lines 98 to 115: the five fields
appended in order, previous with none encoded as 0. -/
def encode (f : DFooter) : Bytes :=
  beBytes 16 (f.previous.getD 0) ++ beBytes 4 f.index ++ beBytes 4 f.total
    ++ beBytes 4 f.count ++ beBytes 2 VERSION

end DFooter

/-- snapshot::Footer.  Modelled from the spec: module snapshot is declared in
lib.rs and its Footer is used by reader.rs and writer.rs, but the file
snapshot.rs is not under src.  Spec section 4.3 gives the layout: previous
(u128 BE, 0 meaning no predecessor), index (u32 BE), count (u32 BE, the total
dictionary size up to and including this link), VERSION (u16 BE), 26 bytes. -/
structure SFooter where
  previous : Option Nat
  index : Nat
  count : Nat
deriving DecidableEq

namespace SFooter

/-- The snapshot footer size: 16 + 4 + 4 + 2 bytes, spec section 4.3. -/
def SIZE : Nat := 26

/-- snapshot::Footer::read.  Modelled from the spec (snapshot.rs is absent
from src): per the read protocol of spec section 4.3 it fails with fileSize
when the file is shorter than the footer, fails with version when the trailing
two bytes differ from VERSION, otherwise decodes the fields from the last 26
bytes of the logical window and shrinks the window by the footer size.  Spec
section 4.6 states that with_snapshot then streams the predecessor snapshot
body (not footer) via copy_from, so the returned reader is positioned at the
start of the body. -/
def read (r : Storage.Reader) : Except Err (SFooter × Storage.Reader) :=
  if r.file_size < SIZE then
    .error (.fileSize SIZE r.file_size)
  else
    let window := r.data.take r.file_size
    let footerBytes := window.drop (r.file_size - SIZE)
    let version := beVal (footerBytes.drop 24)
    if version ≠ VERSION then
      .error (.version VERSION version)
    else
      let previous := beVal (footerBytes.take 16)
      let previous := if previous = 0 then none else some previous
      let index := beVal ((footerBytes.drop 16).take 4)
      let count := beVal ((footerBytes.drop 20).take 4)
      .ok (⟨previous, index, count⟩, ⟨0, r.file_size - SIZE, r.data⟩)

/-- snapshot::Footer::write.  Modelled from the spec (snapshot.rs is absent
from src): the four fields appended in order, spec section 4.3. -/
def encode (f : SFooter) : Bytes :=
  beBytes 16 (f.previous.getD 0) ++ beBytes 4 f.index ++ beBytes 4 f.count
    ++ beBytes 2 VERSION

end SFooter

/-- The object store contents: delta and snapshot files keyed by link id
(the u128 value of the LinkId).  Association lists; lookup takes the first
binding, and the writer prepends fresh ids. -/
structure Store where
  deltas : List (Nat × Bytes)
  snaps : List (Nat × Bytes)
deriving DecidableEq

namespace Store

def empty : Store := ⟨[], []⟩

/-- The delta file of a link, if present. -/
def delta (st : Store) (id : Nat) : Option Bytes :=
  (st.deltas.find? (fun p => p.1 = id)).map (·.2)

/-- The snapshot file of a link, if present. -/
def snap (st : Store) (id : Nat) : Option Bytes :=
  (st.snaps.find? (fun p => p.1 = id)).map (·.2)

/-- The same store with every snapshot file absent: the store a reader sees
when it can only walk delta files. -/
def noSnaps (st : Store) : Store :=
  { st with snaps := [] }

end Store

/-- The entries index of src/entries.rs: a vector of entries in insertion
order plus a hash table mapping each entry (by hash, resolved against the
vector) to the u32 index stored for it.  Under the insert_unique uniqueness
contract the table holds, for the entry at vector position i, the value
i mod 2 to the 32 (len as u32 at insertion time), and lookup by entry finds
exactly that value; the table is therefore represented by the vector alone. -/
structure Entries (α : Type) where
  entries : List α
deriving DecidableEq

namespace Entries

variable {α : Type}

def emptyE : Entries α := ⟨[]⟩

/-- Entries::len, src/entries.rs lines 37 to 40. -/
def len (e : Entries α) : Nat := e.entries.length

/-- Entries::is_empty. -/
def is_empty (e : Entries α) : Bool := e.entries.isEmpty

/-- Entries::get_at, src/entries.rs lines 48 to 52: self.entries.get(index as
usize); the u32 to usize cast is a widening, so this is plain list indexing,
returning none out of bounds. -/
def get_at (e : Entries α) (index : Nat) : Option α :=
  e.entries.get? index

/-- Entries::get_index_of, src/entries.rs lines 54 to 61: the table lookup
returns the stored u32 of the (under the uniqueness contract, unique) entry
equal to the argument, which is its vector position reduced mod 2 to the 32. -/
def get_index_of [DecidableEq α] (e : Entries α) (x : α) : Option Nat :=
  (e.entries.findIdx? (fun y => y = x)).map (· % 2 ^ 32)

/-- Entries::insert_unique, src/entries.rs lines 87 to 101: assigns
self.entries.len() as u32 (a wrapping cast, and the only capacity handling:
the TooManyEntries guard is a TODO comment), inserts that index into the
table, appends the entry, and returns the index.  The function is infallible
in the source (it returns a bare u32). -/
def insert_unique (e : Entries α) (x : α) : Nat × Entries α :=
  (e.entries.length % 2 ^ 32, ⟨e.entries ++ [x]⟩)

/-- Folding insert_unique over a list of entries, as the replay loops of
reader.rs do. -/
def insertAll (e : Entries α) (xs : List α) : Entries α :=
  xs.foldl (fun acc x => (acc.insert_unique x).2) e

theorem insertAll_eq_append (e : Entries α) (xs : List α) :
    insertAll e xs = ⟨e.entries ++ xs⟩ := by
  induction xs generalizing e with
  | nil => simp [insertAll]
  | cons x xs ih =>
    simp only [insertAll, List.foldl_cons] at *
    rw [show (e.insert_unique x).2 = (⟨e.entries ++ [x]⟩ : Entries α) from rfl, ih]
    simp

end Entries

/-- The state of writer::Writer, src/writer.rs lines 17 to 44, with the two
storage::Writer handles replaced by the bytes they have emitted so far
(delta_file; snap_file is none when with_snapshot was not called).  The files
only become visible in the store at finish.  The source type parameter T is a
PhantomData and is carried here by the enc parameter of write_unique. -/
structure WriterM where
  offset : Nat
  count : Nat
  id : Nat
  previous : Option Nat
  index : Nat
  delta_file : Bytes
  snap_file : Option Bytes
deriving DecidableEq

namespace WriterM

/-- Writer::create, src/writer.rs lines 49 to 68.  The source draws a fresh
random v4 LinkId; the id is a parameter here (the only property used is that
it is nonzero and unused, which concrete scenarios pick by hand). -/
def create (previous : Option Nat) (id : Nat) : WriterM :=
  ⟨0, 0, id, previous, 0, [], none⟩

/-- Writer::with_snapshot, src/writer.rs lines 73 to 97: fails NotEmpty if
the delta writer has emitted bytes (storage::Writer::file_size is absent from
src/storage.rs and is modelled from the spec as the number of bytes emitted so
far); otherwise creates a fresh snapshot writer and, when a previous link
exists, opens its snapshot (absence surfaces the storage stat error), reads
its footer, streams the body, and seeds offset, count and index from the
snapshot footer. -/
def with_snapshot (st : Store) (w : WriterM) : Except Err WriterM :=
  if w.delta_file.length ≠ 0 then
    .error .notEmpty
  else
    match w.previous with
    | none => .ok { w with snap_file := some [] }
    | some p =>
      match st.snap p with
      | none => .error .storage
      | some file =>
        match SFooter.read (Storage.Reader.openFile file) with
        | .error e => .error e
        | .ok (footer, r) =>
          .ok { w with
            snap_file := some ((r.data.take r.file_size).drop r.offset)
            offset := footer.count
            count := footer.count
            index := footer.index + 1 }

/-- The seeding step at the top of Writer::write_unique, src/writer.rs lines
108 to 117: when index is still 0 and a previous link exists, it opens the
previous delta (absence surfaces the storage stat error), reads its footer
with DFooter.read, and seeds offset and count from footer.count and index from
footer.index + 1.  write_unique is split into seed and writeEntry below;
their composition is the source function (lines 103 to 133), with the entry
encoder enc standing for Entry::write, which emits the entry's bytes (the
source does not validate the emitted size). -/
def seed (st : Store) (w : WriterM) : Except Err WriterM :=
  if w.index = 0 then
    match w.previous with
    | some p =>
      match st.delta p with
      | none => .error .storage
      | some file =>
        match DFooter.read (Storage.Reader.openFile file) with
        | .error e => .error e
        | .ok (footer, _) =>
          .ok { w with
            offset := footer.count
            count := footer.count
            index := footer.index + 1 }
    | none => .ok w
  else
    .ok w

/-- The body of Writer::write_unique after the seeding step: the u32::MAX
guard, the id assignment and count increment, and the entry writes into the
delta and, when present, snapshot writers. -/
def writeEntry {α : Type} (enc : α → Bytes) (w : WriterM) (entry : α) :
    Except Err (Nat × WriterM) :=
  if w.count = u32Max then
    .error .tooManyEntries
  else
    .ok (w.count, { w with
      count := w.count + 1
      delta_file := w.delta_file ++ enc entry
      snap_file := w.snap_file.map (· ++ enc entry) })

/-- Writer::write_unique proper: seeding followed by the write. -/
def write_unique {α : Type} (st : Store) (enc : α → Bytes) (w : WriterM)
    (entry : α) : Except Err (Nat × WriterM) :=
  match seed st w with
  | .error e => .error e
  | .ok w => writeEntry enc w entry

/-- Writer::finish, src/writer.rs lines 139 to 185: fails Empty when offset
equals count, appends the delta footer (previous, index, total := count,
count := count - offset) to the delta file, appends the snapshot footer
(previous, index, count) to the snapshot file when one exists, and publishes
the finished files in the store under the link id.  offset never exceeds count
in reachable states, so natural subtraction agrees with the u32 one. -/
def finish (st : Store) (w : WriterM) : Except Err (Nat × Store) :=
  if w.offset = w.count then
    .error .empty
  else
    let dfooter : DFooter := ⟨w.previous, w.index, w.count, w.count - w.offset⟩
    let sfooter : SFooter := ⟨w.previous, w.index, w.count⟩
    let st := { st with deltas := (w.id, w.delta_file ++ dfooter.encode) :: st.deltas }
    match w.snap_file with
    | none => .ok (w.id, st)
    | some sf =>
      .ok (w.id, { st with snaps := (w.id, sf ++ sfooter.encode) :: st.snaps })

end WriterM

/-- The state of reader::Reader, src/reader.rs lines 6 to 15. -/
structure ReaderM (α : Type) where
  latest : Nat
  entries : Entries α
deriving DecidableEq

namespace ReaderM

variable {α : Type}

/-- Reading footer.count entries in a row with T::read, as the loops of
reader.rs do.  An Entry implementation only sees the pub surface of
storage::Reader (read_bytes and the integer reads), none of which changes the
reader state, so each T::read call is a pure function of the same reader state;
readE models that function. -/
def readN (readE : Storage.Reader → Except Err α) (r : Storage.Reader) :
    Nat → Except Err (List α)
  | 0 => .ok []
  | n + 1 =>
    match readE r with
    | .error e => .error e
    | .ok x =>
      match readN readE r n with
      | .error e => .error e
      | .ok xs => .ok (x :: xs)

/-- The link-walking loop of Reader::open, src/reader.rs lines 31 to 72,
with explicit fuel (none means the loop did not terminate within fuel steps).
Storage::open_maybe is absent from src/storage.rs and is modelled from the
spec: it yields the snapshot reader when the file exists and none otherwise.
On a snapshot: read its footer, read footer.count entries, stop.  Otherwise
open the delta (absence surfaces the storage stat error), read its footer and
footer.count entries, push the per-link buffer, and continue with
footer.previous until it is none.  Returns the entries inserted from the
snapshot and the per-link delta buffers in discovery order (latest first). -/
def openGo (st : Store) (readE : Storage.Reader → Except Err α) :
    Nat → Nat → Option (Except Err (List α × List (List α)))
  | 0, _ => none
  | fuel + 1, next =>
    match st.snap next with
    | some file =>
      some (match SFooter.read (Storage.Reader.openFile file) with
        | .error e => .error e
        | .ok (footer, r) =>
          match readN readE r footer.count with
          | .error e => .error e
          | .ok es => .ok (es, []))
    | none =>
      match st.delta next with
      | none => some (.error .storage)
      | some file =>
        match DFooter.read (Storage.Reader.openFile file) with
        | .error e => some (.error e)
        | .ok (footer, r) =>
          match readN readE r footer.count with
          | .error e => some (.error e)
          | .ok es =>
            match footer.previous with
            | none => some (.ok ([], [es]))
            | some p =>
              (openGo st readE fuel p).map
                (·.map (fun x => (x.1, es :: x.2)))

/-- Reader::open, src/reader.rs lines 26 to 93 (open is a reserved word in
Lean, hence openChain): run the walk, then build the entries index by
inserting the snapshot entries (done inside the loop in the source) and
replaying the delta buffers in reverse order (oldest first), inserting every
entry with insert_unique. -/
def openChain (st : Store) (readE : Storage.Reader → Except Err α) (latest : Nat)
    (fuel : Nat) : Option (Except Err (ReaderM α)) :=
  (openGo st readE fuel latest).map (·.map (fun (snapEs, deltas) =>
    ⟨latest, deltas.reverse.foldl Entries.insertAll (Entries.emptyE.insertAll snapEs)⟩))

/-- The delta-walking loop of Reader::reload, src/reader.rs lines 104 to 129,
with explicit fuel.  Walks from next backward while next differs from the
reader's current latest: open the delta (absence surfaces the storage stat
error), read its footer, fail Disconnected when the footer has no previous
link, read footer.count entries, push the buffer, continue at the previous
link.  Returns the per-link buffers in discovery order. -/
def reloadGo (st : Store) (readE : Storage.Reader → Except Err α)
    (latest selfLatest : Nat) :
    Nat → Nat → Option (Except Err (List (List α)))
  | 0, _ => none
  | fuel + 1, next =>
    if next = selfLatest then
      some (.ok [])
    else
      match st.delta next with
      | none => some (.error .storage)
      | some file =>
        match DFooter.read (Storage.Reader.openFile file) with
        | .error e => some (.error e)
        | .ok (footer, r) =>
          match footer.previous with
          | none => some (.error (.disconnected latest selfLatest next))
          | some p =>
            match readN readE r footer.count with
            | .error e => some (.error e)
            | .ok es =>
              (reloadGo st readE latest selfLatest fuel p).map (·.map (es :: ·))

/-- Reader::reload, src/reader.rs lines 97 to 143.  The walk only reads; the
reader's fields are touched after it succeeds in full: the buffers are
replayed in reverse order into the entries index and latest is updated last.
A &mut self method is modelled as returning the resulting reader next to the
Result; when the walk fails the source returns before any assignment to
self.entries or self.latest (reserve only adjusts capacity), so the reader
component is the unchanged input. -/
def reload (st : Store) (readE : Storage.Reader → Except Err α)
    (r : ReaderM α) (latest : Nat) (fuel : Nat) :
    Option (Except Err Unit × ReaderM α) :=
  (reloadGo st readE latest r.latest fuel latest).map (fun res =>
    match res with
    | .error e => (.error e, r)
    | .ok deltas =>
      (.ok (), ⟨latest, deltas.reverse.foldl Entries.insertAll r.entries⟩))

/-- Reader::len, src/reader.rs lines 148 to 150. -/
def len (r : ReaderM α) : Nat := r.entries.len

/-- Reader::get_at, src/reader.rs lines 154 to 160: delegates to the entries
index. -/
def get_at (r : ReaderM α) (index : Nat) : Option α :=
  r.entries.get_at index

/-- Reader::get_index_of, src/reader.rs lines 164 to 168: delegates to the
entries index. -/
def get_index_of [DecidableEq α] (r : ReaderM α) (x : α) : Option Nat :=
  r.entries.get_index_of x

end ReaderM

/-- The concrete 4-byte big-endian entry type used by the spec's test
scenarios (section 8): an entry is a Nat below 2 to the 32, written with
write_u32 and read with read_u32. -/
def enc4 (v : Nat) : Bytes := beBytes 4 v

/-- The matching Entry::read implementation: a single read_u32 on the reader,
a pure observation of the reader state (see ReaderM.readN). -/
def readE4 (r : Storage.Reader) : Except Err Nat := r.read_u32

/-- Decidable equality on Except, so that concrete runs of the model can be
checked by decide. -/
instance {ε α : Type} [DecidableEq ε] [DecidableEq α] : DecidableEq (Except ε α) := fun a b =>
  match a, b with
  | .error e, .error f => decidable_of_iff (e = f) (by simp)
  | .ok x, .ok y => decidable_of_iff (x = y) (by simp)
  | .error _, .ok _ => isFalse (by simp)
  | .ok _, .error _ => isFalse (by simp)

/-!
Concrete scenarios, built by running the writer model (never written by hand):
the stores below are proved equal to the writer's output inside the claim
theorems.  Link ids stand in for the random v4 UUIDs the source draws; all
that matters is that they are nonzero and fresh.  Entries are the 4-byte
big-endian values of the spec's test scenarios.
-/

/-- A root link (id 1) holding the single entry 5: Writer::create with no
previous link, one write_unique, finish. -/
def buildRoot1 : Except Err (Nat × Store) := do
  let w : WriterM := WriterM.create none 1
  let (_, w) ← WriterM.write_unique Store.empty enc4 w 5
  WriterM.finish Store.empty w

/-- The store buildRoot1 publishes: one delta file whose footer records
previous = none, index 0, total 1, count 1 (proved below). -/
def rootStore : Store :=
  ⟨[(1, enc4 5 ++ DFooter.encode ⟨none, 0, 1, 1⟩)], []⟩

/-- The writer state produced by the first write_unique of a writer extending
the root link: the seeding step misreads the predecessor footer and leaves
offset 0 and (before the increment) count 0, so the entry is assigned id 0. -/
def seededW : WriterM :=
  ⟨0, 1, 2, some 1, 1, enc4 7, none⟩

/-- A two-link chain: the root of buildRoot1 (entry 5) extended by a link
(id 2) holding the entry 7.  Returns the id assigned to 7 by write_unique,
the new link id, and the store. -/
def buildChain2 : Except Err (Nat × Nat × Store) := do
  let (rid, st1) ← buildRoot1
  let w2 : WriterM := WriterM.create (some rid) 2
  let (k, w2) ← WriterM.write_unique st1 enc4 w2 7
  let (id2, st2) ← WriterM.finish st1 w2
  return (k, id2, st2)

/-- The store buildChain2 publishes (proved below). -/
def chainStore : Store :=
  ⟨[(2, enc4 7 ++ DFooter.encode ⟨some 1, 1, 1, 1⟩),
    (1, enc4 5 ++ DFooter.encode ⟨none, 0, 1, 1⟩)], []⟩

/-- A root link (id 1) holding the two entries 1 and 2 (spec section 8,
scenario 1). -/
def buildRoot12 : Except Err (Nat × Store) := do
  let w : WriterM := WriterM.create none 1
  let (_, w) ← WriterM.write_unique Store.empty enc4 w 1
  let (_, w) ← WriterM.write_unique Store.empty enc4 w 2
  WriterM.finish Store.empty w

/-- The store buildRoot12 publishes (proved below). -/
def root12Store : Store :=
  ⟨[(1, enc4 1 ++ enc4 2 ++ DFooter.encode ⟨none, 0, 2, 2⟩)], []⟩

/-- A root link (id 1) holding the entries 5 and 7, written with a snapshot:
create, with_snapshot, two write_unique calls, finish. -/
def buildSnapRoot : Except Err (Nat × Store) := do
  let w : WriterM := WriterM.create none 1
  let w ← WriterM.with_snapshot Store.empty w
  let (_, w) ← WriterM.write_unique Store.empty enc4 w 5
  let (_, w) ← WriterM.write_unique Store.empty enc4 w 7
  WriterM.finish Store.empty w

/-- The store buildSnapRoot publishes: a delta and a snapshot file for link 1
(proved below). -/
def snapStore : Store :=
  ⟨[(1, enc4 5 ++ enc4 7 ++ DFooter.encode ⟨none, 0, 2, 2⟩)],
   [(1, enc4 5 ++ enc4 7 ++ SFooter.encode ⟨none, 0, 2⟩)]⟩

/-- Claim C1: the spec says the first write_unique of a writer created with a
previous link and no snapshot seeds offset and count with the predecessor
delta footer's total field and index with its index field plus one.  The
source instead reads footer.count (src/writer.rs lines 114 and 115), and on
top of that DFooter.read decodes index, total and count all from the first
four bytes of the previous field because the framed reader never advances its
cursor.  Concretely: the root link's delta footer is written with total = 1
(and count = 1), yet the writer extending it seeds offset = count = 0 (so the
first entry is assigned id 0, where the claim requires footer.total = 1).
The seeding itself does run exactly once: the theorem also records that the
seeded index is 1, which disables the index = 0 guard for later calls. -/
theorem write_unique_seed_diverges_from_total :
    buildRoot1 = .ok (1, rootStore) ∧
    WriterM.write_unique rootStore enc4 (WriterM.create (some 1) 2) 7 =
      .ok (0, seededW) ∧
    rootStore.delta 1 = some (enc4 5 ++ DFooter.encode ⟨none, 0, 1, 1⟩) ∧
    seededW.offset ≠ (⟨none, 0, 1, 1⟩ : DFooter).total ∧
    seededW.index = 1 := by
  refine ⟨by decide, by decide, by decide, by decide, by decide⟩

/-- Claim C2: identifier stability fails on the code.  In the two-link chain
built by the writer model, the root entry 5 was assigned identifier 0 by
write_unique (and the child entry 7 was also assigned 0, by the seeding
misread of C1).  Opening the descendant link 2 yields an empty dictionary:
every delta footer count field is misread as 0 (the first four bytes of the
previous field, since the framed reader never advances its cursor), so zero
entries are read from every file.  get_index_of 5 returns none instead of the
claimed some 0, and get_at 0 returns none instead of some 5. -/
theorem descendant_forgets_assigned_identifier :
    buildChain2 = .ok (0, 2, chainStore) ∧
    ReaderM.openChain chainStore readE4 2 3 =
      some (.ok (⟨2, ⟨[]⟩⟩ : ReaderM Nat)) ∧
    (⟨2, ⟨[]⟩⟩ : ReaderM Nat).get_index_of 5 = none ∧
    (⟨2, ⟨[]⟩⟩ : ReaderM Nat).get_at 0 = none := by
  refine ⟨by decide, by decide, by decide, by decide⟩

/-- Claim C3: the root round-trip fails on the code.  Writing the two
distinct entries 1 and 2 into a fresh root writer and finishing produces a
well-formed delta file (footer total 2, count 2), but Reader::open on the new
link returns a dictionary of length 0 instead of 2: DFooter.read misreads the
count field as 0 (the first four bytes of the previous field, the framed
reader never advancing its cursor), so the entry loop runs zero times.
get_at 0 is none instead of some 1. -/
theorem root_roundtrip_fails :
    buildRoot12 = .ok (1, root12Store) ∧
    ReaderM.openChain root12Store readE4 1 2 =
      some (.ok (⟨1, ⟨[]⟩⟩ : ReaderM Nat)) ∧
    (⟨1, ⟨[]⟩⟩ : ReaderM Nat).len = 0 ∧
    (⟨1, ⟨[]⟩⟩ : ReaderM Nat).len ≠ 2 := by
  refine ⟨by decide, by decide, by decide, by decide⟩

/-- Claim C4: the snapshot path and the delta-only path disagree.  For the
snapshotted root link holding the entries 5 and 7, a Reader::open that finds
the snapshot reads the correct entry count 2 from the (spec-modelled)
snapshot footer but then reads the first body entry twice, because entry
reads do not advance the cursor: it yields the dictionary 5, 5.  A
Reader::open over the same store with the snapshot absent walks the delta,
misreads its count field as 0, and yields the empty dictionary.  The two
dictionaries differ (and neither is the written 5, 7). -/
theorem snapshot_vs_delta_reader_disagree :
    buildSnapRoot = .ok (1, snapStore) ∧
    ReaderM.openChain snapStore readE4 1 2 =
      some (.ok (⟨1, ⟨[5, 5]⟩⟩ : ReaderM Nat)) ∧
    ReaderM.openChain snapStore.noSnaps readE4 1 2 =
      some (.ok (⟨1, ⟨[]⟩⟩ : ReaderM Nat)) ∧
    (⟨[5, 5]⟩ : Entries Nat) ≠ ⟨[]⟩ := by
  refine ⟨by decide, by decide, by decide, by decide⟩

/-- Claim C5: Entries::insert_unique has no capacity guard (the source holds
only a TODO comment, src/entries.rs line 88) and cannot fail: its return type
is a bare u32.  Inserting into an index already holding u32::MAX entries, the
insert that makes the live count exceed u32::MAX, succeeds: it returns the
wrapping cast len as u32 (here u32::MAX) and grows the vector to 2 to the 32
entries.  The writer-side guard of Writer::write_unique does exist: with
count already at u32::MAX it fails with TooManyEntries, as the claim states
for that half. -/
theorem insert_unique_fst (l : List Nat) (x : Nat) :
    (Entries.insert_unique ⟨l⟩ x).1 = l.length % 2 ^ 32 := rfl

theorem insert_unique_len (l : List Nat) (x : Nat) :
    ((Entries.insert_unique ⟨l⟩ x).2).len = l.length + 1 := by
  simp [Entries.insert_unique, Entries.len]

theorem insert_unique_has_no_capacity_guard :
    (Entries.insert_unique (⟨List.range (2 ^ 32 - 1)⟩ : Entries Nat) (2 ^ 32)).1 = u32Max ∧
    ((Entries.insert_unique (⟨List.range (2 ^ 32 - 1)⟩ : Entries Nat) (2 ^ 32)).2).len =
      2 ^ 32 ∧
    2 ^ 32 > u32Max ∧
    WriterM.write_unique Store.empty enc4 (⟨0, u32Max, 9, none, 1, [], none⟩ : WriterM) 5 =
      .error .tooManyEntries := by
  refine ⟨?_, ?_, by norm_num [u32Max], rfl⟩
  · rw [insert_unique_fst, List.length_range, Nat.mod_eq_of_lt (by norm_num)]
    norm_num [u32Max]
  · rw [insert_unique_len, List.length_range]
    norm_num


/-- Claim C6 counterexample: a 2-byte file whose final two bytes 0, 1 are not
the big-endian encoding of VERSION is rejected by Footer::read with FileSize
(the size guard runs before the version check, src/delta.rs lines 56 to 61),
not with Version as the claim asserts for files of any size. -/
theorem short_file_rejected_with_fileSize :
    DFooter.read (Storage.Reader.openFile [0, 1]) = .error (.fileSize 30 2) ∧
    DFooter.read (Storage.Reader.openFile [0, 1]) ≠ .error (.version 0 1) := by
  refine ⟨by decide, by decide⟩

/-- Claim C6, amended: for every file of size at least the delta footer size
(30 bytes) whose final two bytes are not the big-endian encoding of VERSION,
Footer::read rejects it with Version, expected VERSION and got the decoded
value, whatever the remaining content.  (The version read itself lands on the
correct bytes: goto(-2) positions the cursor and a single read_u16 follows, so
the non-advancing cursor does not disturb this path.) -/
theorem version_guard_on_footer_sized_files (bs : Bytes) (h30 : 30 ≤ bs.length)
    (hv : beVal ((bs.drop (bs.length - 2)).take 2) ≠ VERSION) :
    DFooter.read (Storage.Reader.openFile bs) =
      .error (.version VERSION (beVal ((bs.drop (bs.length - 2)).take 2))) := by
  have hA : ¬ (bs.length < DFooter.SIZE) := by simp only [DFooter.SIZE]; omega
  have hB : ¬ ((0 : Int) < -2) := by norm_num
  have hC : ¬ ((bs.length : Int) + -2 < 0) := by omega
  have hD : ((bs.length : Int) + -2).toNat = bs.length - 2 := by omega
  have hE : ¬ (bs.length - 2 + 2 > bs.length) := by omega
  simp only [DFooter.read, Storage.Reader.openFile, Storage.Reader.goto,
    Storage.Reader.read_u16, Storage.Reader.read_bytes, hA, hB, hC, hD, hE,
    if_false, ite_false, Except.map, hv, ne_eq, not_false_eq_true, if_true, ite_true]

/-- Witness for the amended C6 theorem: a 30-byte file of zeros whose last
two bytes are 0, 1 decodes a trailing version of 1 and is rejected with
Version, expected 0, got 1. -/
theorem version_guard_on_footer_sized_files_witness :
    DFooter.read (Storage.Reader.openFile (List.replicate 28 0 ++ [0, 1])) =
      .error (.version VERSION 1) := by
  have h := version_guard_on_footer_sized_files (List.replicate 28 0 ++ [0, 1])
    (by decide) (by decide)
  rw [h]
  decide

/-- The reload walk terminates immediately when the requested link equals the
reader's current latest link (the while condition of src/reader.rs line 105),
collecting no deltas. -/
theorem reloadGo_stop {α : Type} (st : Store) (readE : Storage.Reader → Except Err α)
    (l sl f : Nat) :
    ReaderM.reloadGo st readE l sl (f + 1) sl = some (.ok ([] : List (List α))) := by
  simp [ReaderM.reloadGo]

/-- Claim C7: reload is a no-op at the current latest link, and reloading the
same link twice leaves the reader exactly as one reload does.  First
conjunct: reload at the reader's own latest link returns ok and the reader
unchanged (the walk collects nothing, the replay inserts nothing, and latest
is rewritten with its own value).  Second conjunct: after any completed
reload of x (hypothesis h), reloading x again yields the same reader state:
when the first reload succeeded its reader has latest = x, so the second is a
no-op; when it failed the reader was unchanged and the second call repeats
the first.  The hypothesis names any outcome, success or failure. -/
theorem reload_noop_and_idempotent {α : Type} (st : Store)
    (readE : Storage.Reader → Except Err α) (r : ReaderM α) (x fuel : Nat)
    (out : Except Err Unit × ReaderM α) (hf : 1 ≤ fuel)
    (h : ReaderM.reload st readE r x fuel = some out) :
    ReaderM.reload st readE r r.latest fuel = some (.ok (), r) ∧
    (ReaderM.reload st readE out.2 x fuel).map Prod.snd = some out.2 := by
  obtain ⟨f, rfl⟩ : ∃ f, fuel = f + 1 := ⟨fuel - 1, by omega⟩
  constructor
  · unfold ReaderM.reload
    rw [reloadGo_stop]
    rfl
  · unfold ReaderM.reload at h
    rw [Option.map_eq_some'] at h
    obtain ⟨res, hres, hmap⟩ := h
    cases res with
    | error e =>
      rw [← hmap]
      unfold ReaderM.reload
      rw [hres]
      rfl
    | ok ds =>
      rw [← hmap]
      unfold ReaderM.reload
      rw [reloadGo_stop]
      rfl

/-- Witness for C7, on the empty store: reload of link 5 from a reader at
link 7 completes (with the storage error for the missing delta), reload at
the reader's own link 7 is a no-op, and repeating the reload of 5 reproduces
the same (unchanged) reader. -/
theorem reload_noop_and_idempotent_witness :
    ReaderM.reload Store.empty readE4 (⟨7, ⟨[]⟩⟩ : ReaderM Nat) 7 1 =
      some (.ok (), (⟨7, ⟨[]⟩⟩ : ReaderM Nat)) ∧
    (ReaderM.reload Store.empty readE4 (⟨7, ⟨[]⟩⟩ : ReaderM Nat) 5 1).map Prod.snd =
      some (⟨7, ⟨[]⟩⟩ : ReaderM Nat) := by
  have h := reload_noop_and_idempotent Store.empty readE4 (⟨7, ⟨[]⟩⟩ : ReaderM Nat) 5 1
    (.error .storage, (⟨7, ⟨[]⟩⟩ : ReaderM Nat)) (by norm_num) (by decide)
  exact ⟨h.1, h.2⟩

/-- Claim C8: reload atomicity.  Whenever Reader::reload completes with any
error, the returned reader is exactly the input reader: the delta walk of
src/reader.rs lines 104 to 129 only reads, and the inserts into the entries
index and the update of latest (lines 131 to 140) happen only after every
delta on the walk has been read successfully; every early return precedes
them.  The error covers all cases: missing delta (storage), footer errors,
Disconnected, and entry-read failures. -/
theorem reload_error_leaves_reader_unchanged {α : Type} (st : Store)
    (readE : Storage.Reader → Except Err α) (r : ReaderM α) (x fuel : Nat)
    (e : Err) (r2 : ReaderM α)
    (h : ReaderM.reload st readE r x fuel = some (.error e, r2)) : r2 = r := by
  unfold ReaderM.reload at h
  rw [Option.map_eq_some'] at h
  obtain ⟨res, hres, hmap⟩ := h
  cases res with
  | error e2 =>
    simp only [Prod.mk.injEq] at hmap
    exact hmap.2.symm
  | ok ds =>
    simp only [Prod.mk.injEq] at hmap
    exact absurd hmap.1 (by simp)

/-- Witness for C8: on the empty store, reloading the missing link 5 from a
reader at link 7 errors and the reader is returned unchanged. -/
theorem reload_error_leaves_reader_unchanged_witness :
    (⟨7, ⟨([] : List Nat)⟩⟩ : ReaderM Nat) = ⟨7, ⟨[]⟩⟩ :=
  reload_error_leaves_reader_unchanged Store.empty readE4 (⟨7, ⟨[]⟩⟩ : ReaderM Nat)
    5 1 .storage (⟨7, ⟨[]⟩⟩ : ReaderM Nat) (by decide)

/-- The (spec-modelled) snapshot footer read never produces the NotEmpty
error: its only failures are FileSize and Version. -/
theorem sfooter_read_ne_notEmpty (r : Storage.Reader) :
    SFooter.read r ≠ .error .notEmpty := by
  simp only [SFooter.read]
  split
  · simp
  · split <;> simp

/-- Claim C9: with_snapshot raises NotEmpty exactly when bytes were already
written to the delta file (src/writer.rs line 76 checks the delta writer's
emitted size, not whether a snapshot writer already exists), so a second
with_snapshot call before any write does not fail: it builds a fresh snapshot
writer for the same link, copies the predecessor's snapshot body again, and
reseeds offset, count and index — reaching exactly the state the first call
produced.  First conjunct: the NotEmpty iff.  Second conjunct: a repeated
call on any successful result returns that same state. -/
theorem with_snapshot_notEmpty_iff_and_repeatable (st : Store) (w : WriterM) :
    (WriterM.with_snapshot st w = .error .notEmpty ↔ w.delta_file.length ≠ 0) ∧
    (∀ w1, WriterM.with_snapshot st w = .ok w1 →
      WriterM.with_snapshot st w1 = .ok w1) := by
  constructor
  · constructor
    · intro h
      unfold WriterM.with_snapshot at h
      split at h
      · next hcond => exact hcond
      · next hcond =>
        exfalso
        split at h
        · simp at h
        · split at h
          · simp at h
          · split at h
            · next heq =>
              simp only [Except.error.injEq] at h
              exact sfooter_read_ne_notEmpty _ (by rw [heq, h])
            · simp at h
    · intro hlen
      unfold WriterM.with_snapshot
      rw [if_pos hlen]
  · intro w1 h
    unfold WriterM.with_snapshot at h
    split at h
    · exact absurd h (by simp)
    · next hcond =>
      split at h
      · next hprev =>
        simp only [Except.ok.injEq] at h
        subst h
        unfold WriterM.with_snapshot
        rw [if_neg (by simpa using hcond)]
        simp [hprev]
      · next p hprev =>
        split at h
        · exact absurd h (by simp)
        · next file hsnap =>
          split at h
          · exact absurd h (by simp)
          · next footer r hread =>
            simp only [Except.ok.injEq] at h
            subst h
            unfold WriterM.with_snapshot
            rw [if_neg (by simpa using hcond)]
            simp [hprev, hsnap, hread]

/-- Witness for C9 on the snapshotted root store: a fresh writer extending
link 1 has an empty delta file, so with_snapshot does not raise NotEmpty, and
calling with_snapshot again on the state the first call produced (offset 2,
count 2, index 1, snapshot body copied) returns that state unchanged. -/
theorem with_snapshot_notEmpty_iff_and_repeatable_witness :
    (WriterM.with_snapshot snapStore (WriterM.create (some 1) 3) = .error .notEmpty ↔
      (WriterM.create (some 1) 3 : WriterM).delta_file.length ≠ 0) ∧
    WriterM.with_snapshot snapStore (⟨2, 2, 3, some 1, 1, [], some (enc4 5 ++ enc4 7)⟩ : WriterM) =
      .ok (⟨2, 2, 3, some 1, 1, [], some (enc4 5 ++ enc4 7)⟩ : WriterM) := by
  have h := with_snapshot_notEmpty_iff_and_repeatable snapStore (WriterM.create (some 1) 3)
  exact ⟨h.1, h.2 (⟨2, 2, 3, some 1, 1, [], some (enc4 5 ++ enc4 7)⟩ : WriterM) (by decide)⟩

/-- Claim C10: get_at is total at the public interface.  For every reader
state and every index, Reader::get_at (which delegates to Entries::get_at,
a plain bounds-checked vector lookup after the widening u32 to usize cast)
returns the entry stored at position i of the insertion-ordered vector (the
entry assigned identifier i) when i is below the length, and none otherwise;
both functions are total, with no failure path. -/
theorem get_at_total_on_every_index {α : Type} (r : ReaderM α) (i : Nat) :
    (∀ h : i < r.entries.len,
      r.get_at i = some (r.entries.entries.get ⟨i, h⟩) ∧
      r.entries.get_at i = some (r.entries.entries.get ⟨i, h⟩)) ∧
    (r.entries.len ≤ i → r.get_at i = none ∧ r.entries.get_at i = none) := by
  constructor
  · intro h
    have hg := List.get?_eq_get (l := r.entries.entries) (n := i) h
    exact ⟨hg, hg⟩
  · intro h
    have hn := List.get?_eq_none.mpr h
    exact ⟨hn, hn⟩

/-- Witness for C10: in a reader holding the entries 10 and 20, get_at 1 is
some 20 and get_at 5 is none. -/
theorem get_at_total_on_every_index_witness :
    ReaderM.get_at (⟨1, ⟨[10, 20]⟩⟩ : ReaderM Nat) 1 = some 20 ∧
    ReaderM.get_at (⟨1, ⟨[10, 20]⟩⟩ : ReaderM Nat) 5 = none := by
  have h1 := (get_at_total_on_every_index (⟨1, ⟨[10, 20]⟩⟩ : ReaderM Nat) 1).1 (by decide)
  have h2 := (get_at_total_on_every_index (⟨1, ⟨[10, 20]⟩⟩ : ReaderM Nat) 5).2 (by decide)
  refine ⟨?_, h2.1⟩
  rw [h1.1]
  rfl

end Chaindict
